import Mathlib

/-!
Shallow embedding of the ghome-mcp-server smart-plug tool server
(TypeScript): the JS runtime values the handlers coerce, the MCP error
codes, the vendor (Smart Device Management) device records, the
`SDMService` backend adapter (`src/services/sdm.ts`), the tool handlers
(`src/tools/index.ts`, SDM variant), and the tool dispatch of the server
(`src/index.ts` variants).  Backend effects are made explicit: every
vendor-API call a run performs is recorded in a trace, and thrown JS
values become `Except.error`.
-/

namespace GhomeMCP

/-- A JS runtime value, as far as the handlers inspect one.  Numbers are
modelled as integers (the code and claims only involve `0`); objects are
modelled separately as argument bags. -/
inductive JSValue where
  | vStr : String → JSValue
  | vNum : Int → JSValue
  | vBool : Bool → JSValue
  | vNull : JSValue
  | vUndefined : JSValue
  deriving DecidableEq, Repr

/-- JS truthiness, `Boolean(v)`: `false`, `0`, the empty string, `null`
and `undefined` are falsy; everything else is truthy. -/
def jsToBool : JSValue → Bool
  | .vStr s => s != ""
  | .vNum n => n != 0
  | .vBool b => b
  | .vNull => false
  | .vUndefined => false

/-- JS `String(v)` coercion for the values a handler can receive. -/
def jsToString : JSValue → String
  | .vStr s => s
  | .vNum n => toString n
  | .vBool b => if b then "true" else "false"
  | .vNull => "null"
  | .vUndefined => "undefined"

/-- A JS object used as an argument bag: association list from key to
value (`'k' in args` is key membership; `args.k` is lookup). -/
def ArgsBag : Type := List (String × JSValue)

instance : DecidableEq ArgsBag := by
  unfold ArgsBag
  infer_instance

/-- Key membership, JS `'k' in args`. -/
def hasKey (bag : ArgsBag) (k : String) : Bool :=
  bag.any (fun p => p.1 == k)

/-- Property access `args.k` (`undefined` when the key is absent). -/
def getArg (bag : ArgsBag) (k : String) : JSValue :=
  match List.lookup k bag with
  | some v => v
  | none => .vUndefined

/-! ### MCP error codes (`ErrorCode` from the MCP SDK, JSON-RPC values) -/

def ParseError : Int := -32700
def InvalidRequest : Int := -32600
def MethodNotFound : Int := -32601
def InvalidParams : Int := -32602
def InternalError : Int := -32603

/-- A JS value thrown inside the service's `try` blocks: either a raw
vendor/transport error or a structured `{code, message}` literal. -/
inductive Thrown where
  | vendor : String → Thrown
  | structured : Int → String → Thrown
  deriving DecidableEq, Repr

/-- A structured MCP Error Object `{code, message, data?}` as the
handlers throw it; `data` retains the originally thrown value. -/
structure ErrObj where
  code : Int
  message : String
  data : Option Thrown := none
  deriving DecidableEq, Repr

/-! ### Vendor device records (googleapis SDM) -/

/-- The three traits the code reads from a vendor device record; each may
be absent. -/
structure Traits where
  infoCustomName : Option String := none
  onOffOn : Option Bool := none
  connectivityStatus : Option String := none
  deriving DecidableEq, Repr

/-- A vendor device record as returned by the SDM API; every field may be
absent (`undefined`). -/
structure VendorDevice where
  name : Option String := none
  type : Option String := none
  traits : Option Traits := none
  deriving DecidableEq, Repr

/-- The plug category sentinel the list filter compares against. -/
def outletType : String := "sdm.devices.types.OUTLET"

/-- Normalized device snapshot (`SmartPlugDevice` in `src/types`):
`id`/`name`/`type` are passed through from the (possibly absent) vendor
fields, `state` holds the projected booleans. -/
structure PlugState where
  «on» : Bool
  online : Bool
  deriving DecidableEq, Repr

structure SmartPlugDevice where
  id : Option String
  name : Option String
  type : Option String
  traits : Traits
  state : PlugState
  deriving DecidableEq, Repr

/-- The `'ONLINE'` sentinel of the connectivity trait. -/
def connectivityOnline : String := "ONLINE"

/-- JS `a || b` restricted to string-or-undefined operands: returns `a`
when it is a truthy (non-empty) string, else `b`. -/
def strOrElse (a : Option String) (b : Option String) : Option String :=
  match a with
  | some s => if s = "" then b else some s
  | none => b

/-- The `device → SmartPlugDevice` mapping shared by `listDevices` and
`getDeviceState`:
`name: traits?.Info?.customName || device.name`,
`on: Boolean(traits?.OnOff?.on)`,
`online: traits?.Connectivity?.status === 'ONLINE'`,
`traits: device.traits || {}`. -/
def mapDevice (d : VendorDevice) : SmartPlugDevice :=
  { id := d.name
    name := strOrElse (d.traits.bind Traits.infoCustomName) d.name
    type := d.type
    traits := d.traits.getD {}
    state :=
      { «on» := (d.traits.bind Traits.onOffOn).getD false
        online := (d.traits.bind Traits.connectivityStatus) == some connectivityOnline } }

/-! ### The backend (vendor API) and call traces -/

/-- The outcome the vendor API yields for each of the three calls the
service can make.  `listResult` is `response.data.devices` (possibly
absent); `getResult id` is `response.data` on success (possibly absent,
i.e. no such device) or a thrown transport error; `setResult` is the
`executeCommand` acknowledgement. -/
structure Backend where
  listResult : Except String (Option (List VendorDevice))
  getResult : String → Except String (Option VendorDevice)
  setResult : String → Bool → Except String Unit

/-- One observable vendor-API invocation. -/
inductive BackendCall where
  | listCall : BackendCall
  | getCall : String → BackendCall
  | setCall : String → Bool → BackendCall
  deriving DecidableEq, Repr

/-- The guard error `{code: InternalError, message: "Smart Device Management API not initialized"}`. -/
def sdmNotInitialized : ErrObj :=
  { code := InternalError, message := "Smart Device Management API not initialized" }

namespace SDMService

/-- Embeds `SDMService.listDevices` (`src/services/sdm.ts`): guard on a missing
SDM client, fetch the device list, default it to `[]`, filter to the
outlet category, map to snapshots; a thrown vendor error is caught and
re-thrown as `InternalError` with the original error as `data`. -/
def listDevices (sdm : Option Backend) :
    Except ErrObj (List SmartPlugDevice) × List BackendCall :=
  match sdm with
  | none => (.error sdmNotInitialized, [])
  | some b =>
    match b.listResult with
    | .ok data =>
      let devices := data.getD []
      (.ok ((devices.filter (fun d => d.type == some outletType)).map mapDevice),
        [.listCall])
    | .error e =>
      (.error { code := InternalError, message := "Failed to get devices",
                data := some (.vendor e) }, [.listCall])

/-- Embeds `SDMService.controlDevice`: guard on a missing SDM client, issue the
`OnOff.Set` command; a thrown vendor error is caught and re-thrown as
`InternalError`.  No re-fetch of the device is performed. -/
def controlDevice (sdm : Option Backend) (deviceId : String) (state : Bool) :
    Except ErrObj Unit × List BackendCall :=
  match sdm with
  | none => (.error sdmNotInitialized, [])
  | some b =>
    match b.setResult deviceId state with
    | .ok _ => (.ok (), [.setCall deviceId state])
    | .error e =>
      (.error { code := InternalError,
                message := "Failed to control device " ++ deviceId,
                data := some (.vendor e) }, [.setCall deviceId state])

/-- Embeds `SDMService.getDeviceState`: guard on a missing SDM client, then a
`try` block that fetches the device, throws a structured
`{code: InvalidParams, message: 'Device not found: …'}` literal when
`response.data` is absent, and otherwise returns the mapped snapshot.
Crucially, the not-found throw sits INSIDE the `try`, so the `catch`
clause re-wraps it (like any vendor error) into an `InternalError`
object carrying the thrown value as `data`. -/
def getDeviceState (sdm : Option Backend) (deviceId : String) :
    Except ErrObj SmartPlugDevice × List BackendCall :=
  match sdm with
  | none => (.error sdmNotInitialized, [])
  | some b =>
    let tryBody : Except Thrown SmartPlugDevice :=
      match b.getResult deviceId with
      | .error e => .error (.vendor e)
      | .ok none =>
        .error (.structured InvalidParams ("Device not found: " ++ deviceId))
      | .ok (some d) => .ok (mapDevice d)
    match tryBody with
    | .ok d => (.ok d, [.getCall deviceId])
    | .error thrown =>
      (.error { code := InternalError,
                message := "Failed to get device state: " ++ deviceId,
                data := some thrown }, [.getCall deviceId])

end SDMService

/-! ### Tool handlers (`src/tools/index.ts`, SDM variant) -/

/-- A handler result `{ content: … }`. -/
structure ToolOutput (α : Type) where
  content : α
  deriving DecidableEq, Repr

/-- The device part of a `control_smart_plug` success payload. -/
structure ControlledDevice where
  id : String
  state : PlugState
  deriving DecidableEq, Repr

/-- A `control_smart_plug` success payload `{success, device}`. -/
structure ControlResult where
  success : Bool
  device : ControlledDevice
  deriving DecidableEq, Repr

/-- The structured error thrown when `control_smart_plug` validation
fails. -/
def missingControlParams : ErrObj :=
  { code := InvalidParams,
    message := "Missing required parameters: deviceId and state" }

/-- The structured error thrown when `get_smart_plug_state` validation
fails. -/
def missingGetStateParams : ErrObj :=
  { code := InvalidParams, message := "Missing required parameter: deviceId" }

/-- Embeds `handlers.list_smart_plugs`: no validation; returns
`{content: await service.listDevices()}`.  The argument bag is ignored
(the handler takes only the SDM client). -/
def handle_list_smart_plugs (sdm : Option Backend) :
    Except ErrObj (ToolOutput (List SmartPlugDevice)) × List BackendCall :=
  match SDMService.listDevices sdm with
  | (.ok ds, t) => (.ok { content := ds }, t)
  | (.error e, t) => (.error e, t)

/-- Embeds `handlers.control_smart_plug`: throws `InvalidParams` when `args` is
not an object or lacks the `deviceId` or `state` key (presence check
only — no runtime type check); otherwise coerces
`deviceId := String(args.deviceId)`, `state := Boolean(args.state)`,
issues the set command and optimistically reports
`{success: true, device: {id, state: {on: state, online: true}}}`
without re-fetching the device.  `args = none` stands for a missing or
non-object argument value, which the guard rejects identically. -/
def handle_control_smart_plug (sdm : Option Backend) (args : Option ArgsBag) :
    Except ErrObj (ToolOutput ControlResult) × List BackendCall :=
  match args with
  | none => (.error missingControlParams, [])
  | some bag =>
    if hasKey bag "deviceId" && hasKey bag "state" then
      let deviceId := jsToString (getArg bag "deviceId")
      let state := jsToBool (getArg bag "state")
      match SDMService.controlDevice sdm deviceId state with
      | (.ok _, t) =>
        (.ok { content :=
                { success := true
                  device :=
                    { id := deviceId
                      state := { «on» := state, online := true } } } }, t)
      | (.error e, t) => (.error e, t)
    else (.error missingControlParams, [])

/-- Embeds `handlers.get_smart_plug_state`: throws `InvalidParams` when `args`
is not an object or lacks the `deviceId` key; otherwise coerces
`deviceId := String(args.deviceId)` and returns
`{content: await service.getDeviceState(deviceId)}`. -/
def handle_get_smart_plug_state (sdm : Option Backend) (args : Option ArgsBag) :
    Except ErrObj (ToolOutput SmartPlugDevice) × List BackendCall :=
  match args with
  | none => (.error missingGetStateParams, [])
  | some bag =>
    if hasKey bag "deviceId" then
      let deviceId := jsToString (getArg bag "deviceId")
      match SDMService.getDeviceState sdm deviceId with
      | (.ok d, t) => (.ok { content := d }, t)
      | (.error e, t) => (.error e, t)
    else (.error missingGetStateParams, [])

/-! ### Tool dispatch (`src/index.ts`, CallToolRequestSchema handler)

The registered tool names and the `MethodNotFound` default are identical
across the server variants in the repository (the `handlers[name]`
lookup and the `switch` default case). -/

/-- A handler reference held in the dispatch table. -/
inductive HandlerKind where
  | listH : HandlerKind
  | controlH : HandlerKind
  | getH : HandlerKind
  deriving DecidableEq, Repr

/-- The `handlers` object: the dispatch table keyed by tool name,
registered once at startup and never mutated. -/
def registeredHandlers : List (String × HandlerKind) :=
  [("list_smart_plugs", .listH),
   ("control_smart_plug", .controlH),
   ("get_smart_plug_state", .getH)]

/-- The union of the three tools' response payloads. -/
inductive ToolResponse where
  | listResp : ToolOutput (List SmartPlugDevice) → ToolResponse
  | controlResp : ToolOutput ControlResult → ToolResponse
  | getResp : ToolOutput SmartPlugDevice → ToolResponse
  deriving DecidableEq, Repr

/-- The body of the call-tool request handler, over an explicit dispatch
table: `handlers[name]` lookup, `MethodNotFound` on a miss, otherwise
the resolved handler runs on the argument bag. -/
def dispatchOver (table : List (String × HandlerKind)) (sdm : Option Backend)
    (name : String) (args : Option ArgsBag) :
    Except ErrObj ToolResponse × List BackendCall :=
  match List.lookup name table with
  | none =>
    (.error { code := MethodNotFound, message := "Unknown tool: " ++ name }, [])
  | some .listH =>
    match handle_list_smart_plugs sdm with
    | (r, t) => (r.map .listResp, t)
  | some .controlH =>
    match handle_control_smart_plug sdm args with
    | (r, t) => (r.map .controlResp, t)
  | some .getH =>
    match handle_get_smart_plug_state sdm args with
    | (r, t) => (r.map .getResp, t)

/-- Dispatch against the table the server registers at startup. -/
def dispatch (sdm : Option Backend) (name : String) (args : Option ArgsBag) :
    Except ErrObj ToolResponse × List BackendCall :=
  dispatchOver registeredHandlers sdm name args

/-- The call-tool request as a transition on the dispatch table: the
handler body contains no assignment to the table, so the table after the
call is the table before it. -/
def dispatchStep (table : List (String × HandlerKind)) (sdm : Option Backend)
    (name : String) (args : Option ArgsBag) :
    (Except ErrObj ToolResponse × List BackendCall) × List (String × HandlerKind) :=
  (dispatchOver table sdm name args, table)

/-! ### Error translation at the dispatch boundary -/

/-- A JS exception escaping a tool handler: a structured Error Object or
any other thrown value (string/Error/raw vendor failure). -/
inductive HandlerExc where
  | structuredE : ErrObj → HandlerExc
  | unstructuredE : String → HandlerExc
  deriving DecidableEq, Repr

/-- Modelled from the spec: the error translation at the dispatch
boundary (performed by the MCP SDK `Server` wrapper around registered
request handlers, which is not part of this repository's `src/`) —
"any exception raised by the handler is caught and re-expressed as an
Error Object with code `InternalError` unless the handler already
raised a structured Error Object (in which case it passes through
unchanged)". -/
def translateError : HandlerExc → ErrObj
  | .structuredE o => o
  | .unstructuredE e =>
    { code := InternalError, message := e, data := some (.vendor e) }

/-! ### Server lifecycle state and cleanup (`src/index.ts`) -/

/-- The server configuration loaded from `config.json`. -/
structure Config where
  clientId : String
  clientSecret : String
  refreshToken : Option String := none
  deriving DecidableEq, Repr

/-- The OAuth2 client reference held by the server. -/
structure OAuth2Client where
  clientId : String
  clientSecret : String
  refreshToken : String
  deriving DecidableEq, Repr

/-- The backend-service reference held by the server (HomeGraph/SDM
client, opaque here). -/
structure BackendRef where
  tag : String
  deriving DecidableEq, Repr

/-- The mutable fields of `GoogleHomeServer`: the nullable Authenticator
and Backend Adapter references, plus the loaded config. -/
structure GoogleHomeServerState where
  auth : Option OAuth2Client
  backend : Option BackendRef
  config : Config
  deriving DecidableEq, Repr

/-- Embeds `GoogleHomeServer.cleanup`: sets the backend reference and the auth
reference to `null`; nothing else in the server state is touched. -/
def cleanup (s : GoogleHomeServerState) : GoogleHomeServerState :=
  { s with backend := none, auth := none }

/-! ### Concrete instances used to exercise the definitions -/

/-- Membership in the fixed protocol error taxonomy. -/
def inTaxonomy (c : Int) : Prop :=
  c = ParseError ∨ c = InvalidRequest ∨ c = MethodNotFound ∨
    c = InvalidParams ∨ c = InternalError

instance (c : Int) : Decidable (inTaxonomy c) := by
  unfold inTaxonomy
  infer_instance

/-- A backend whose every call is acknowledged and whose account has no
devices. -/
def okBackend : Backend :=
  { listResult := .ok (some [])
    getResult := fun _ => .ok none
    setResult := fun _ _ => .ok () }

/-- A backend for which the vendor reports no such device on `get` (the
fetch succeeds with an absent `response.data`). -/
def missingDeviceBackend : Backend :=
  { listResult := .ok none
    getResult := fun _ => .ok none
    setResult := fun _ _ => .ok () }

/-- An outlet record whose custom name is present but empty. -/
def emptyCustomNameDevice : VendorDevice :=
  { name := some "enterprises/e/devices/dev-1"
    type := some outletType
    traits := some { infoCustomName := some ""
                     onOffOn := none
                     connectivityStatus := some connectivityOnline } }

/-- A backend whose device list holds exactly `emptyCustomNameDevice`. -/
def emptyNameBackend : Backend :=
  { listResult := .ok (some [emptyCustomNameDevice])
    getResult := fun _ => .ok none
    setResult := fun _ _ => .ok () }

/-- The list-operation projection written from the amended claim's
words: keep only records of the outlet category; `name` is the vendor
custom name when present and non-empty, otherwise the device id; `on` is
the on/off trait value defaulting to false when absent; `online` holds
exactly when the connectivity status equals the `"ONLINE"` sentinel. -/
def specListPlugs (devices : List VendorDevice) : List SmartPlugDevice :=
  (devices.filter (fun d => d.type == some outletType)).map (fun d =>
    { id := d.name
      name :=
        match d.traits.bind Traits.infoCustomName with
        | some s => if s = "" then d.name else some s
        | none => d.name
      type := d.type
      traits := d.traits.getD {}
      state :=
        { «on» := (d.traits.bind Traits.onOffOn).getD false
          online := d.traits.bind Traits.connectivityStatus == some connectivityOnline } })

/-- A server state whose references were already released. -/
def stoppedServer : GoogleHomeServerState :=
  { auth := none
    backend := none
    config := { clientId := "client-id", clientSecret := "client-secret" } }

/-! ## Theorems -/

/-- C1: for every device id and requested boolean state, if the backend
set command succeeds then `control_smart_plug` returns
`{success: true, device: {id, state: {on: requested, online: true}}}`,
whatever the rest of the backend (the device's pre-call physical state)
looks like; the backend trace is exactly the one set command, so no
re-fetch of the device is performed before replying. -/
theorem claim_C1_control_optimistic_report
    (b : Backend) (deviceId : String) (state : Bool)
    (hset : b.setResult deviceId state = .ok ()) :
    handle_control_smart_plug (some b)
        (some [("deviceId", .vStr deviceId), ("state", .vBool state)]) =
      (.ok { content :=
              { success := true
                device := { id := deviceId
                            state := { «on» := state, online := true } } } },
       [.setCall deviceId state]) := by
  simp [handle_control_smart_plug, SDMService.controlDevice, hasKey, getArg,
    jsToString, jsToBool, List.lookup, hset]

/-- C1 witness at `deviceId := "X"`, `state := true` on `okBackend`. -/
theorem claim_C1_witness :
    handle_control_smart_plug (some okBackend)
        (some [("deviceId", .vStr "X"), ("state", .vBool true)]) =
      (.ok { content :=
              { success := true
                device := { id := "X"
                            state := { «on» := true, online := true } } } },
       [.setCall "X" true]) :=
  claim_C1_control_optimistic_report okBackend "X" true rfl

/-- C2 (code bug): `get_smart_plug_state` on an id for which the vendor
reports no such device surfaces an `InternalError`, not the
`InvalidParams` the claim states: the handler builds the intended
`{code: InvalidParams, message: 'Device not found: …'}` object, but
throws it inside the `try` block, so the catch-all re-wraps it as
`InternalError` (retaining the intended object as `data`). -/
theorem claim_C2_not_found_surfaces_internal_error :
    handle_get_smart_plug_state (some missingDeviceBackend)
        (some [("deviceId", .vStr "unknown-id")]) =
      (.error { code := InternalError
                message := "Failed to get device state: unknown-id"
                data := some (.structured InvalidParams
                  "Device not found: unknown-id") },
       [.getCall "unknown-id"]) ∧
    InternalError ≠ InvalidParams := by
  exact ⟨rfl, by decide⟩

/-- C5: a `control_smart_plug` argument bag lacking `deviceId` or
`state` (or absent altogether) is rejected with the structured
`InvalidParams` error, and the backend trace is empty — the set
operation is never invoked, for any backend. -/
theorem claim_C5_missing_required_field_rejected
    (sdm : Option Backend) (args : Option ArgsBag)
    (h : args = none ∨ ∃ bag, args = some bag ∧
          (hasKey bag "deviceId" = false ∨ hasKey bag "state" = false)) :
    handle_control_smart_plug sdm args = (.error missingControlParams, []) ∧
    missingControlParams.code = InvalidParams := by
  refine ⟨?_, rfl⟩
  rcases h with h | ⟨bag, rfl, h⟩
  · subst h; rfl
  · rcases h with h | h <;> simp [handle_control_smart_plug, h]

/-- C5 witness: the bag `{deviceId: "missing"}` (no `state`). -/
theorem claim_C5_witness :
    handle_control_smart_plug (some okBackend)
        (some [("deviceId", .vStr "missing")]) =
      (.error missingControlParams, []) ∧
    missingControlParams.code = InvalidParams :=
  claim_C5_missing_required_field_rejected (some okBackend)
    (some [("deviceId", .vStr "missing")])
    (Or.inr ⟨[("deviceId", .vStr "missing")], rfl, Or.inr (by decide)⟩)

/-- C6: a call-tool request naming a tool absent from the dispatch table
fails with `MethodNotFound`, performs no backend call, and leaves the
dispatch table exactly as it was. -/
theorem claim_C6_unknown_tool_method_not_found
    (table : List (String × HandlerKind)) (sdm : Option Backend)
    (name : String) (args : Option ArgsBag)
    (h : List.lookup name table = none) :
    dispatchStep table sdm name args =
      ((.error { code := MethodNotFound, message := "Unknown tool: " ++ name },
        []), table) := by
  unfold dispatchStep dispatchOver
  rw [h]

/-- C6 witness: `"not_a_tool"` against the registered table. -/
theorem claim_C6_witness :
    dispatchStep registeredHandlers (some okBackend) "not_a_tool" none =
      ((.error { code := MethodNotFound, message := "Unknown tool: not_a_tool" },
        []), registeredHandlers) :=
  claim_C6_unknown_tool_method_not_found registeredHandlers (some okBackend)
    "not_a_tool" none (by decide)

/-- C9: `cleanup` releases the Backend Adapter and Authenticator
references (both become null), cleaning up twice yields the same server
state as cleaning up once, and on an already-released server it is a
no-op. -/
theorem claim_C9_cleanup_idempotent :
    (∀ s : GoogleHomeServerState,
        (cleanup s).auth = none ∧ (cleanup s).backend = none) ∧
    (∀ s : GoogleHomeServerState, cleanup (cleanup s) = cleanup s) ∧
    (∀ s : GoogleHomeServerState,
        s.auth = none → s.backend = none → cleanup s = s) := by
  refine ⟨fun s => ⟨rfl, rfl⟩, fun s => rfl, fun s h1 h2 => ?_⟩
  cases s
  simp only [cleanup] at *
  simp [h1, h2]

/-- C9 witness: `cleanup` on an already-stopped server is a no-op. -/
theorem claim_C9_witness : cleanup stoppedServer = stoppedServer :=
  claim_C9_cleanup_idempotent.2.2 stoppedServer rfl rfl

/-- C10: once `deviceId` and `state` are both present, the state sent to
the backend and echoed in a successful reply is the JS truthiness
coercion `Boolean(state)` of the supplied value, whatever its runtime
type; in particular `"false"` is truthy (turns the plug on) while `0`
and `""` are falsy (turn it off). -/
theorem claim_C10_truthiness_coercion :
    (∀ (b : Backend) (bag : ArgsBag),
        hasKey bag "deviceId" = true → hasKey bag "state" = true →
        (handle_control_smart_plug (some b) (some bag)).2 =
          [.setCall (jsToString (getArg bag "deviceId"))
            (jsToBool (getArg bag "state"))] ∧
        ∀ r, (handle_control_smart_plug (some b) (some bag)).1 = .ok r →
          r.content.device.state.«on» = jsToBool (getArg bag "state")) ∧
    jsToBool (.vStr "false") = true ∧
    jsToBool (.vNum 0) = false ∧
    jsToBool (.vStr "") = false := by
  refine ⟨fun b bag h1 h2 => ?_, by decide, by decide, by decide⟩
  simp only [handle_control_smart_plug, h1, h2, Bool.and_self, if_true]
  rcases hset : b.setResult (jsToString (getArg bag "deviceId"))
      (jsToBool (getArg bag "state")) with _ | u
  · simp [SDMService.controlDevice, hset]
  · simp [SDMService.controlDevice, hset]

/-- C10 witness: `state: "false"` on `okBackend` — the backend is told
to turn the plug ON and the reply echoes `on: true`. -/
theorem claim_C10_witness :
    (handle_control_smart_plug (some okBackend)
        (some [("deviceId", .vStr "X"), ("state", .vStr "false")])).2 =
      [.setCall (jsToString (getArg [("deviceId", .vStr "X"),
          ("state", .vStr "false")] "deviceId"))
        (jsToBool (getArg [("deviceId", .vStr "X"),
          ("state", .vStr "false")] "state"))] ∧
    ∀ r, (handle_control_smart_plug (some okBackend)
        (some [("deviceId", .vStr "X"), ("state", .vStr "false")])).1 = .ok r →
      r.content.device.state.«on» =
        jsToBool (getArg [("deviceId", .vStr "X"),
          ("state", .vStr "false")] "state") :=
  claim_C10_truthiness_coercion.1 okBackend
    [("deviceId", .vStr "X"), ("state", .vStr "false")] (by decide) (by decide)

/-- C3: `list_smart_plugs` dispatched with an empty argument bag
succeeds whenever the vendor list call does, returning an array — empty
rather than an error when no plugs are configured — each of whose
elements carries boolean `on`/`online` fields. -/
theorem claim_C3_list_smart_plugs_succeeds
    (b : Backend) (data : Option (List VendorDevice))
    (hlist : b.listResult = .ok data) :
    ∃ plugs : List SmartPlugDevice,
      (dispatch (some b) "list_smart_plugs" (some [])).1 =
        .ok (.listResp { content := plugs }) ∧
      ((data.getD []).filter (fun d => d.type == some outletType) = [] →
        plugs = []) ∧
      ∀ p ∈ plugs,
        (p.state.«on» = true ∨ p.state.«on» = false) ∧
        (p.state.online = true ∨ p.state.online = false) := by
  refine ⟨((data.getD []).filter
      (fun d => d.type == some outletType)).map mapDevice, ?_, ?_, ?_⟩
  · simp [dispatch, dispatchOver, List.lookup, handle_list_smart_plugs,
      SDMService.listDevices, hlist, Except.map]
  · intro h
    rw [h]
    rfl
  · intro p _
    constructor
    · cases p.state.«on» <;> simp
    · cases p.state.online <;> simp

/-- C3 witness: an account with no devices yields the empty array. -/
theorem claim_C3_witness :
    ∃ plugs : List SmartPlugDevice,
      (dispatch (some okBackend) "list_smart_plugs" (some [])).1 =
        .ok (.listResp { content := plugs }) ∧
      ((((some [] : Option (List VendorDevice)).getD []).filter
          (fun d => d.type == some outletType)) = [] → plugs = []) ∧
      ∀ p ∈ plugs,
        (p.state.«on» = true ∨ p.state.«on» = false) ∧
        (p.state.online = true ∨ p.state.online = false) :=
  claim_C3_list_smart_plugs_succeeds okBackend (some []) rfl

/-- C4 counterexample: `state` supplied as the string `"false"` (wrong
runtime type for the declared boolean) is NOT rejected with
`InvalidParams`: validation passes, the backend set command IS invoked
(with the coerced value `true`), and the call succeeds. -/
theorem claim_C4_counterexample :
    (handle_control_smart_plug (some okBackend)
        (some [("deviceId", .vStr "X"), ("state", .vStr "false")])).1 =
      .ok { content :=
            { success := true
              device := { id := "X"
                          state := { «on» := true, online := true } } } } ∧
    (handle_control_smart_plug (some okBackend)
        (some [("deviceId", .vStr "X"), ("state", .vStr "false")])).2 =
      [.setCall "X" true] :=
  ⟨rfl, rfl⟩

/-- C4 amended: argument validation checks only the PRESENCE of the
declared required fields; a present field whose runtime type differs
from the declared one is not rejected — it is coerced
(`String(…)`/`Boolean(…)`) and the backend set call proceeds with the
coerced values, so the only errors past validation are `InternalError`
ones. -/
theorem claim_C4_amended_presence_only_validation
    (b : Backend) (bag : ArgsBag)
    (h1 : hasKey bag "deviceId" = true) (h2 : hasKey bag "state" = true) :
    (∀ e, (handle_control_smart_plug (some b) (some bag)).1 = .error e →
        e.code = InternalError) ∧
    (handle_control_smart_plug (some b) (some bag)).2 =
      [.setCall (jsToString (getArg bag "deviceId"))
        (jsToBool (getArg bag "state"))] := by
  simp only [handle_control_smart_plug, h1, h2, Bool.and_self, if_true]
  rcases hset : b.setResult (jsToString (getArg bag "deviceId"))
      (jsToBool (getArg bag "state")) with e | u
  · constructor
    · intro e' he'
      simp [SDMService.controlDevice, hset] at he'
      rw [← he']
    · simp [SDMService.controlDevice, hset]
  · simp [SDMService.controlDevice, hset]

/-- C4 amended witness: the counterexample bag passes validation and
reaches the backend with the coerced state. -/
theorem claim_C4_amended_witness :
    (∀ e, (handle_control_smart_plug (some okBackend)
        (some [("deviceId", .vStr "X"), ("state", .vStr "false")])).1 =
          .error e → e.code = InternalError) ∧
    (handle_control_smart_plug (some okBackend)
        (some [("deviceId", .vStr "X"), ("state", .vStr "false")])).2 =
      [.setCall (jsToString (getArg [("deviceId", .vStr "X"),
          ("state", .vStr "false")] "deviceId"))
        (jsToBool (getArg [("deviceId", .vStr "X"),
          ("state", .vStr "false")] "state"))] :=
  claim_C4_amended_presence_only_validation okBackend
    [("deviceId", .vStr "X"), ("state", .vStr "false")] (by decide) (by decide)

/-- Every error `SDMService.listDevices` can produce carries
`InternalError`. -/
theorem listDevices_error_internal (sdm : Option Backend) (e : ErrObj)
    (h : (SDMService.listDevices sdm).1 = .error e) :
    e.code = InternalError := by
  unfold SDMService.listDevices at h
  split at h
  · simp only [Except.error.injEq] at h
    subst h
    rfl
  · split at h
    · exact absurd h (by simp)
    · simp only [Except.error.injEq] at h
      subst h
      rfl

/-- Every error `SDMService.controlDevice` can produce carries
`InternalError`. -/
theorem controlDevice_error_internal (sdm : Option Backend)
    (deviceId : String) (state : Bool) (e : ErrObj)
    (h : (SDMService.controlDevice sdm deviceId state).1 = .error e) :
    e.code = InternalError := by
  unfold SDMService.controlDevice at h
  split at h
  · simp only [Except.error.injEq] at h
    subst h
    rfl
  · split at h
    · exact absurd h (by simp)
    · simp only [Except.error.injEq] at h
      subst h
      rfl

/-- Every error `SDMService.getDeviceState` can produce carries
`InternalError` — including the not-found case, whose intended
`InvalidParams` object is swallowed by the catch-all (see C2). -/
theorem getDeviceState_error_internal (sdm : Option Backend)
    (deviceId : String) (e : ErrObj)
    (h : (SDMService.getDeviceState sdm deviceId).1 = .error e) :
    e.code = InternalError := by
  rcases sdm with _ | b
  · simp [SDMService.getDeviceState] at h
    cases h
    rfl
  · rcases hg : b.getResult deviceId with er | od
    · simp [SDMService.getDeviceState, hg] at h
      cases h
      rfl
    · rcases od with _ | d
      · simp [SDMService.getDeviceState, hg] at h
        cases h
        rfl
      · simp [SDMService.getDeviceState, hg] at h

/-- Every error the `control_smart_plug` handler can surface is
`InvalidParams` or `InternalError`. -/
theorem control_handler_error_taxonomy (sdm : Option Backend)
    (args : Option ArgsBag) (e : ErrObj)
    (h : (handle_control_smart_plug sdm args).1 = .error e) :
    e.code = InvalidParams ∨ e.code = InternalError := by
  rcases args with _ | bag
  · simp [handle_control_smart_plug] at h
    cases h
    left
    rfl
  · rcases hk : hasKey bag "deviceId" && hasKey bag "state" with _ | _
    · simp [handle_control_smart_plug, hk] at h
      cases h
      left
      rfl
    · rcases hc : SDMService.controlDevice sdm
          (jsToString (getArg bag "deviceId"))
          (jsToBool (getArg bag "state")) with ⟨er | r, t⟩
      · simp [handle_control_smart_plug, hk, hc] at h
        cases h
        exact Or.inr (controlDevice_error_internal _ _ _ _ (by rw [hc]))
      · simp [handle_control_smart_plug, hk, hc] at h

/-- Every error the `get_smart_plug_state` handler can surface is
`InvalidParams` or `InternalError`. -/
theorem get_handler_error_taxonomy (sdm : Option Backend)
    (args : Option ArgsBag) (e : ErrObj)
    (h : (handle_get_smart_plug_state sdm args).1 = .error e) :
    e.code = InvalidParams ∨ e.code = InternalError := by
  rcases args with _ | bag
  · simp [handle_get_smart_plug_state] at h
    cases h
    left
    rfl
  · rcases hk : hasKey bag "deviceId" with _ | _
    · simp [handle_get_smart_plug_state, hk] at h
      cases h
      left
      rfl
    · rcases hc : SDMService.getDeviceState sdm
          (jsToString (getArg bag "deviceId")) with ⟨er | r, t⟩
      · simp [handle_get_smart_plug_state, hk, hc] at h
        cases h
        exact Or.inr (getDeviceState_error_internal _ _ _ (by rw [hc]))
      · simp [handle_get_smart_plug_state, hk, hc] at h

/-- Every error the `list_smart_plugs` handler can surface is
`InternalError`. -/
theorem list_handler_error_taxonomy (sdm : Option Backend) (e : ErrObj)
    (h : (handle_list_smart_plugs sdm).1 = .error e) :
    e.code = InternalError := by
  rcases hl : SDMService.listDevices sdm with ⟨er | r, t⟩
  · simp [handle_list_smart_plugs, hl] at h
    cases h
    exact listDevices_error_internal _ _ (by rw [hl])
  · simp [handle_list_smart_plugs, hl] at h

/-- Every error surfacing from `dispatch` carries `MethodNotFound`,
`InvalidParams` or `InternalError`. -/
theorem dispatch_error_taxonomy (sdm : Option Backend) (name : String)
    (args : Option ArgsBag) (e : ErrObj)
    (h : (dispatch sdm name args).1 = .error e) :
    e.code = MethodNotFound ∨ e.code = InvalidParams ∨
      e.code = InternalError := by
  unfold dispatch dispatchOver at h
  rcases hl : List.lookup name registeredHandlers with _ | k
  · simp [hl] at h
    cases h
    left
    rfl
  · rcases k with _ | _ | _
    · rcases hr : handle_list_smart_plugs sdm with ⟨er | r, t⟩
      · simp [hl, hr, Except.map] at h
        cases h
        exact Or.inr (Or.inr (list_handler_error_taxonomy _ _ (by rw [hr])))
      · simp [hl, hr, Except.map] at h
    · rcases hr : handle_control_smart_plug sdm args with ⟨er | r, t⟩
      · simp [hl, hr, Except.map] at h
        cases h
        rcases control_handler_error_taxonomy _ _ _ (by rw [hr]) with h2 | h2
        · exact Or.inr (Or.inl h2)
        · exact Or.inr (Or.inr h2)
      · simp [hl, hr, Except.map] at h
    · rcases hr : handle_get_smart_plug_state sdm args with ⟨er | r, t⟩
      · simp [hl, hr, Except.map] at h
        cases h
        rcases get_handler_error_taxonomy _ _ _ (by rw [hr]) with h2 | h2
        · exact Or.inr (Or.inl h2)
        · exact Or.inr (Or.inr h2)
      · simp [hl, hr, Except.map] at h

/-- C7: a structured Error Object raised by a handler passes through the
dispatch boundary unchanged; any other exception is re-expressed with
code `InternalError`; and every error the repository's dispatch can
surface has a code inside the fixed five-code taxonomy. -/
theorem claim_C7_error_translation_taxonomy :
    (∀ o : ErrObj, translateError (.structuredE o) = o) ∧
    (∀ m : String, (translateError (.unstructuredE m)).code = InternalError) ∧
    (∀ (sdm : Option Backend) (name : String) (args : Option ArgsBag)
        (e : ErrObj), (dispatch sdm name args).1 = .error e →
        inTaxonomy e.code) := by
  refine ⟨fun o => rfl, fun m => rfl, fun sdm name args e h => ?_⟩
  rcases dispatch_error_taxonomy sdm name args e h with h' | h' | h'
  · exact Or.inr (Or.inr (Or.inl h'))
  · exact Or.inr (Or.inr (Or.inr (Or.inl h')))
  · exact Or.inr (Or.inr (Or.inr (Or.inr h')))

/-- C7 witness: a structured `InvalidParams` object passes through; an
unstructured socket error becomes `InternalError`; the error surfaced by
a concrete failing dispatch sits in the taxonomy. -/
theorem claim_C7_witness :
    translateError (.structuredE missingControlParams) = missingControlParams ∧
    (translateError (.unstructuredE "socket hang up")).code = InternalError ∧
    inTaxonomy missingControlParams.code :=
  ⟨claim_C7_error_translation_taxonomy.1 missingControlParams,
   claim_C7_error_translation_taxonomy.2.1 "socket hang up",
   claim_C7_error_translation_taxonomy.2.2 none "control_smart_plug" none
     missingControlParams rfl⟩

/-- C8 counterexample: on an outlet whose vendor custom name is present
but empty, the list mapping names the snapshot after the device id, not
the (present) custom name — JS `||` falls through on the empty string. -/
theorem claim_C8_counterexample :
    emptyCustomNameDevice.traits.bind Traits.infoCustomName = some "" ∧
    (SDMService.listDevices (some emptyNameBackend)).1 =
      .ok [{ id := some "enterprises/e/devices/dev-1"
             name := some "enterprises/e/devices/dev-1"
             type := some outletType
             traits := { infoCustomName := some ""
                         onOffOn := none
                         connectivityStatus := some connectivityOnline }
             state := { «on» := false, online := true } }] ∧
    (some "enterprises/e/devices/dev-1" : Option String) ≠ some "" := by
  refine ⟨rfl, rfl, by decide⟩

/-- C8 amended: the list operation keeps only outlet-category records
and maps each surviving record to a snapshot whose `name` is the vendor
custom name when present AND non-empty (otherwise the device id), whose
`on` is the on/off trait value defaulting to false when absent, and
whose `online` holds exactly when the connectivity status equals
`"ONLINE"`. -/
theorem claim_C8_amended_list_projection
    (b : Backend) (data : Option (List VendorDevice))
    (hlist : b.listResult = .ok data) :
    ∃ plugs : List SmartPlugDevice,
      (SDMService.listDevices (some b)).1 = .ok plugs ∧
      plugs = specListPlugs (data.getD []) ∧
      ∀ p ∈ plugs, ∃ d ∈ data.getD [],
        d.type = some outletType ∧
        p.id = d.name ∧
        p.name = (match d.traits.bind Traits.infoCustomName with
                  | some s => if s = "" then d.name else some s
                  | none => d.name) ∧
        p.state.«on» = (d.traits.bind Traits.onOffOn).getD false ∧
        (p.state.online = true ↔
          d.traits.bind Traits.connectivityStatus = some connectivityOnline) := by
  refine ⟨((data.getD []).filter
      (fun d => d.type == some outletType)).map mapDevice, ?_, ?_, ?_⟩
  · simp [SDMService.listDevices, hlist]
  · rfl
  · intro p hp
    rcases List.mem_map.mp hp with ⟨d, hd, rfl⟩
    rcases List.mem_filter.mp hd with ⟨hdm, hdt⟩
    refine ⟨d, hdm, eq_of_beq hdt, rfl, rfl, rfl, ?_⟩
    simp [mapDevice, beq_iff_eq]

/-- C8 amended witness: the projection on the concrete one-outlet
backend. -/
theorem claim_C8_amended_witness :
    ∃ plugs : List SmartPlugDevice,
      (SDMService.listDevices (some emptyNameBackend)).1 = .ok plugs ∧
      plugs = specListPlugs
        ((some [emptyCustomNameDevice] : Option (List VendorDevice)).getD []) ∧
      ∀ p ∈ plugs, ∃ d ∈
          ((some [emptyCustomNameDevice] : Option (List VendorDevice)).getD []),
        d.type = some outletType ∧
        p.id = d.name ∧
        p.name = (match d.traits.bind Traits.infoCustomName with
                  | some s => if s = "" then d.name else some s
                  | none => d.name) ∧
        p.state.«on» = (d.traits.bind Traits.onOffOn).getD false ∧
        (p.state.online = true ↔
          d.traits.bind Traits.connectivityStatus = some connectivityOnline) :=
  claim_C8_amended_list_projection emptyNameBackend
    (some [emptyCustomNameDevice]) rfl

end GhomeMCP
